import Mathlib

/-!
Verification of the business-duration / first-response-metrics core.

The development shallowly embeds the Python sources:
  src/business_duration.py       (configurable calculator, function business_duration)
  src/time_to_first_response.py  (hardcoded calculator businessDuration, the
                                  first-response detector and its filter, the
                                  stats aggregator)

Modelling conventions:
* a Python datetime is an Instant: a day number (days since 1970-01-01) plus a
  second-of-day; Python weekday() (Monday = 0) becomes (day + 3) % 7 since
  1970-01-01 was a Thursday.  datetime comparison is the lexicographic order on
  (day, sec), which on normalized datetimes coincides with instant order.
* the while loops of both duration functions advance the cursor by exactly one
  day per iteration, so they are translated fuel-recursively; the wrapper
  passes endT.day + 1 - start.day, which is exactly the number of iterations
  the Python loop performs (a sufficiency lemma below shows any larger fuel
  computes the same value).
* Python str.split(",") and str.strip() are translated by the structural
  functions pySplitComma and pyStrip over the character list.
* os.getenv inputs of business_duration (working hours and weekend day names)
  become explicit parameters; raising ValueError becomes Except.error.
* numpy.average / numpy.median / numpy.percentile (linear interpolation) and
  numpy.round (round half to even) are external library calls; they are
  modelled over ℚ from their documented semantics.
-/

/-- A Python datetime: day number (days since 1970-01-01) and second of day. -/
structure Instant where
  day : ℕ
  sec : ℕ
deriving DecidableEq

instance : LT Instant :=
  ⟨fun a b => a.day < b.day ∨ (a.day = b.day ∧ a.sec < b.sec)⟩

instance : LE Instant :=
  ⟨fun a b => a.day < b.day ∨ (a.day = b.day ∧ a.sec ≤ b.sec)⟩

theorem Instant.lt_iff (a b : Instant) :
    a < b ↔ (a.day < b.day ∨ (a.day = b.day ∧ a.sec < b.sec)) := Iff.rfl

theorem Instant.le_iff (a b : Instant) :
    a ≤ b ↔ (a.day < b.day ∨ (a.day = b.day ∧ a.sec ≤ b.sec)) := Iff.rfl

instance (a b : Instant) : Decidable (a < b) :=
  decidable_of_iff _ (Instant.lt_iff a b).symm

instance (a b : Instant) : Decidable (a ≤ b) :=
  decidable_of_iff _ (Instant.le_iff a b).symm

/-- Python weekday(): Monday = 0 .. Sunday = 6; 1970-01-01 was a Thursday. -/
def Instant.weekday (i : Instant) : ℕ := (i.day + 3) % 7

/-- Python datetime.replace(hour=h, minute=0, second=0, microsecond=0). -/
def Instant.replaceHour (i : Instant) (h : ℕ) : Instant := ⟨i.day, h * 3600⟩

/-- Python max(a, b) on datetimes (returns a on ties, which are equal anyway). -/
def Instant.maxI (a b : Instant) : Instant := if a < b then b else a

/-- Python min(a, b) on datetimes (returns a on ties, which are equal anyway). -/
def Instant.minI (a b : Instant) : Instant := if b < a then b else a

/-- One working-day contribution of the duration loop: the body of the
non-weekend branch shared verbatim by business_duration
(src/business_duration.py lines 62-75) and businessDuration
(src/time_to_first_response.py lines 212-225): clip the day window
[workday_start, workday_end] at start on the start day and at endT on the end
day, and count the clipped width when positive. -/
def dayContribution (workday_start workday_end : ℕ) (start endT current : Instant) : ℕ :=
  let current_start0 := current.replaceHour workday_start
  let current_end0 := current.replaceHour workday_end
  let current_start := if current.day = start.day then Instant.maxI current current_start0 else current_start0
  let current_end := if current.day = endT.day then Instant.minI endT current_end0 else current_end0
  if current_start < current_end then current_end.sec - current_start.sec else 0

/-- The while loop of business_duration (src/business_duration.py lines 53-79),
fuel-recursive: each iteration either skips a weekend day wholesale or adds
that day's clipped contribution, then moves the cursor to the next day's
work-start instant. -/
def bdLoop (workday_start workday_end : ℕ) (weekend_days_int : List ℕ)
    (start endT : Instant) : ℕ → Instant → ℕ
  | 0, _ => 0
  | fuel + 1, current =>
    if current < endT then
      if current.weekday ∈ weekend_days_int then
        bdLoop workday_start workday_end weekend_days_int start endT fuel
          ⟨current.day + 1, workday_start * 3600⟩
      else
        dayContribution workday_start workday_end start endT current +
          bdLoop workday_start workday_end weekend_days_int start endT fuel
            ⟨current.day + 1, workday_start * 3600⟩
    else 0

/-- The loop of business_duration run from start with exactly enough fuel
(the cursor gains one day per iteration, so endT.day + 1 - start.day
iterations always reach termination). -/
def bd_core (workday_start workday_end : ℕ) (weekend_days_int : List ℕ)
    (start endT : Instant) : ℕ :=
  bdLoop workday_start workday_end weekend_days_int start endT
    (endT.day + 1 - start.day) start

/-- src/business_duration.py line 42: the seven canonical weekday names. -/
def valid_days : List String :=
  ["Monday", "Tuesday", "Wednesday", "Thursday", "Friday", "Saturday", "Sunday"]

/-- Python str.split(",") over the character list: "a,,b" gives three groups,
"" gives one empty group. -/
def pySplitComma : List Char → List (List Char)
  | [] => [[]]
  | c :: rest =>
    if c = ',' then [] :: pySplitComma rest
    else
      match pySplitComma rest with
      | [] => [[c]]
      | g :: gs => (c :: g) :: gs

/-- Python str.strip(): drop whitespace from both ends. -/
def pyStrip (s : List Char) : List Char :=
  ((s.dropWhile Char.isWhitespace).reverse.dropWhile Char.isWhitespace).reverse

/-- src/business_duration.py lines 36-47: split the weekend-days input on
commas, strip each token, silently keep only canonical weekday names, and map
each kept name to its index (0 = Monday .. 6 = Sunday). -/
def parse_weekend (weekend_days : String) : List ℕ :=
  let weekend_days_list := (pySplitComma weekend_days.data).map (fun cs => String.mk (pyStrip cs))
  let filtered_weekend_days := weekend_days_list.filter (fun day => decide (day ∈ valid_days))
  filtered_weekend_days.map (fun day => valid_days.indexOf day)

/-- src/business_duration.py, function business_duration: the os.getenv working
hours and weekend-days string are passed explicitly; the three ValueError
checks of lines 28-33 become Except.error; on valid hours the result is the
day loop over the parsed weekend set. -/
def business_duration (workday_start workday_end : ℤ) (weekend_days : String)
    (start endT : Instant) : Except String ℕ :=
  if workday_start < 0 ∨ workday_start > 23 then
    Except.error "Working hours start time must be between 0 and 23"
  else if workday_end < 0 ∨ workday_end > 23 then
    Except.error "Working hours end time must be between 0 and 23"
  else if workday_start ≥ workday_end then
    Except.error "Working hours start time must be before the end time"
  else
    Except.ok (bd_core workday_start.toNat workday_end.toNat
      (parse_weekend weekend_days) start endT)

/-- The while loop of businessDuration (src/time_to_first_response.py lines
202-229): identical to the business_duration loop except that the working
hours are hardcoded to 9-18 and the weekend set to [4, 5] (Friday, Saturday). -/
def businessDurationLoop (start endT : Instant) : ℕ → Instant → ℕ
  | 0, _ => 0
  | fuel + 1, current =>
    if current < endT then
      if current.weekday ∈ [4, 5] then
        businessDurationLoop start endT fuel ⟨current.day + 1, 9 * 3600⟩
      else
        dayContribution 9 18 start endT current +
          businessDurationLoop start endT fuel ⟨current.day + 1, 9 * 3600⟩
    else 0

/-- src/time_to_first_response.py, function businessDuration: the hardcoded
calculator invoked by measure_time_to_first_response. -/
def businessDuration (start endT : Instant) : ℕ :=
  businessDurationLoop start endT (endT.day + 1 - start.day) start

/-- A github3 user as read by the detector: login and account type string. -/
structure User where
  login : String
  userType : String
deriving DecidableEq

/-- An issue or pull-request comment: its author and created_at (none models a
value that is not a datetime, i.e. a pending placeholder). -/
structure Comment where
  user : User
  created_at : Option Instant
deriving DecidableEq

/-- A pull-request review: user none models malformed (ghost) author data,
whose field accesses raise inside ignore_comment. -/
structure Review where
  user : Option User
  submitted_at : Option Instant
deriving DecidableEq

/-- The issue data the detector reads: its author, created_at, and the fetched
comment page (20 comments, created ascending) as delivered by the fetch layer. -/
structure Issue where
  user : User
  created_at : Instant
  comments : List Comment
deriving DecidableEq

/-- The discussion payload the detector reads: createdAt and the createdAt of
each node of discussion["comments"]["nodes"] (the only field accessed). -/
structure Discussion where
  createdAt : Instant
  commentNodes : List Instant
deriving DecidableEq

/-- src/time_to_first_response.py lines 122-147, ignore_comment: a comment is
ignored when its author is in the ignore list, is a bot, or is the issue
creator, when its timestamp is not a datetime (pending), or when
ready_for_review_at is set and the resolved timestamp precedes it. -/
def ignore_comment (issue_user comment_user : User) (ignore_users : List String)
    (comment_created_at : Option Instant) (ready_for_review_at : Option Instant) : Bool :=
  let user_is_ignored := decide (comment_user.login ∈ ignore_users)
  let user_is_a_bot := decide (comment_user.userType.toLower = "bot")
  let user_is_issue_creator := decide (comment_user.login = issue_user.login)
  let is_pending_comment := comment_created_at.isNone
  let issue_was_created_before_ready_for_review :=
    match ready_for_review_at, comment_created_at with
    | some r, some c => decide (c < r)
    | _, _ => false
  user_is_ignored || user_is_a_bot || user_is_issue_creator || is_pending_comment ||
    issue_was_created_before_ready_for_review

/-- src/time_to_first_response.py lines 60-70: the first comment of the page
that ignore_comment does not reject; its created_at is recorded (necessarily
resolved, since pending comments are rejected). -/
def firstCommentTime (issue_user : User) (ignore_users : List String)
    (ready_for_review_at : Option Instant) : List Comment → Option Instant
  | [] => none
  | c :: rest =>
    if ignore_comment issue_user c.user ignore_users c.created_at ready_for_review_at then
      firstCommentTime issue_user ignore_users ready_for_review_at rest
    else c.created_at

/-- src/time_to_first_response.py lines 77-87: scan the reviews for the first
one ignore_comment does not reject; a review with malformed (ghost) author
data raises before anything is recorded, modelled as Except.error. -/
def firstReviewCommentTime (issue_user : User) (ignore_users : List String)
    (ready_for_review_at : Option Instant) : List Review → Except Unit (Option Instant)
  | [] => Except.ok none
  | r :: rest =>
    match r.user with
    | none => Except.error ()
    | some u =>
      if ignore_comment issue_user u ignore_users r.submitted_at ready_for_review_at then
        firstReviewCommentTime issue_user ignore_users ready_for_review_at rest
      else Except.ok r.submitted_at

/-- src/time_to_first_response.py lines 29-119, measure_time_to_first_response.
The issue phase computes (earliest_response, issue_time), with Except.error
modelling the early `return None` of line 101 when an issue is given but no
qualifying comment or review exists; the try/except of lines 76-91 catching
the review-scan failure becomes the match that maps Except.error to none.
The discussion phase then overrides both values when the discussion has at
least one comment node.  The result is businessDuration between them. -/
def measure_time_to_first_response (issue : Option Issue) (discussion : Option Discussion)
    (pull_request : Option (List Review)) (ready_for_review_at : Option Instant)
    (ignore_users : Option (List String)) : Option ℕ :=
  let ign := ignore_users.getD []
  let issuePhase : Except Unit (Option Instant × Option Instant) :=
    match issue with
    | none => Except.ok (none, none)
    | some iss =>
      let first_comment_time := firstCommentTime iss.user ign ready_for_review_at iss.comments
      let first_review_comment_time : Option Instant :=
        match pull_request with
        | some reviews =>
          match firstReviewCommentTime iss.user ign ready_for_review_at reviews with
          | Except.ok t => t
          | Except.error _ => none
        | none => none
      let earliest_response : Option Instant :=
        match first_comment_time, first_review_comment_time with
        | some a, some b => some (Instant.minI a b)
        | some a, none => some a
        | none, some b => some b
        | none, none => none
      match earliest_response with
      | none => Except.error ()
      | some e =>
        let issue_time := match ready_for_review_at with
          | some r => r
          | none => iss.created_at
        Except.ok (some e, some issue_time)
  match issuePhase with
  | Except.error _ => none
  | Except.ok er_it =>
    let final :=
      match discussion with
      | some d =>
        match d.commentNodes with
        | t :: _ => (some t, some d.createdAt)
        | [] => er_it
      | none => er_it
    match final.1, final.2 with
    | some earliest_response, some issue_time =>
      some (businessDuration issue_time earliest_response)
    | _, _ => none

/-- An issue with its measured metric, as read by the aggregator: only the
time_to_first_response field (a duration in seconds; none = unmeasured). -/
structure IssueWithMetrics where
  time_to_first_response : Option ℚ
deriving DecidableEq

/-- The aggregation loop of src/time_to_first_response.py lines 162-168:
collect total_seconds() of each truthy time_to_first_response (Python
timedelta(0) is falsy, so a zero duration lands in none_count exactly like
None) and count the rest. -/
def collectResponseTimes : List IssueWithMetrics → List ℚ × ℕ
  | [] => ([], 0)
  | i :: rest =>
    let p := collectResponseTimes rest
    match i.time_to_first_response with
    | some t => if t ≠ 0 then (t :: p.1, p.2) else (p.1, p.2 + 1)
    | none => (p.1, p.2 + 1)

/-- Modelled from numpy documentation: numpy.sort (the values, ascending) via
insertion. -/
def insertSorted (x : ℚ) : List ℚ → List ℚ
  | [] => [x]
  | y :: ys => if x ≤ y then x :: y :: ys else y :: insertSorted x ys

/-- Modelled from numpy documentation: ascending sort used by median and
percentile. -/
def sortQ : List ℚ → List ℚ
  | [] => []
  | x :: xs => insertSorted x (sortQ xs)

/-- Modelled from numpy documentation: numpy.average, the arithmetic mean. -/
def npAverage (l : List ℚ) : ℚ := l.sum / (l.length : ℚ)

/-- Modelled from numpy documentation: numpy.median, the middle element of the
sorted values, or the mean of the two middle elements for even length. -/
def npMedian (l : List ℚ) : ℚ :=
  let s := sortQ l
  let n := s.length
  if n % 2 = 1 then s.getD (n / 2) 0
  else (s.getD (n / 2 - 1) 0 + s.getD (n / 2) 0) / 2

/-- Modelled from numpy documentation: numpy.percentile with the default
linear interpolation: at rank q the virtual index is (n - 1) * q / 100 and
the value interpolates linearly between its floor and ceiling neighbours. -/
def npPercentile (l : List ℚ) (q : ℚ) : ℚ :=
  let s := sortQ l
  let n := s.length
  let h : ℚ := ((n : ℚ) - 1) * q / 100
  let i : ℕ := (⌊h⌋).toNat
  if i + 1 ≤ n - 1 then s.getD i 0 + (h - (i : ℚ)) * (s.getD (i + 1) 0 - s.getD i 0)
  else s.getD (n - 1) 0

/-- Modelled from numpy documentation: numpy.round on a scalar, rounding half
to even. -/
def roundHalfEven (x : ℚ) : ℤ :=
  if x - ⌊x⌋ < 1 / 2 then ⌊x⌋
  else if 1 / 2 < x - ⌊x⌋ then ⌊x⌋ + 1
  else if ⌊x⌋ % 2 = 0 then ⌊x⌋ else ⌊x⌋ + 1

/-- The stats dictionary built at src/time_to_first_response.py lines 179-183:
rounded average, median and 90th-percentile seconds. -/
structure Stats where
  avg : ℤ
  med : ℤ
  p90 : ℤ
deriving DecidableEq

/-- src/time_to_first_response.py lines 150-190,
get_stats_time_to_first_response: collect the truthy durations, return none
when len(issues) - none_count <= 0, else the rounded average, median and
90th percentile. -/
def get_stats_time_to_first_response (issues : List IssueWithMetrics) : Option Stats :=
  let response_times := (collectResponseTimes issues).1
  let none_count := (collectResponseTimes issues).2
  if (issues.length : ℤ) - (none_count : ℤ) ≤ 0 then none
  else
    some ⟨roundHalfEven (npAverage response_times),
      roundHalfEven (npMedian response_times),
      roundHalfEven (npPercentile response_times 90)⟩

theorem Instant.not_lt_of_le {a b : Instant} (h : a ≤ b) : ¬ b < a := by
  rw [Instant.le_iff] at h
  rw [Instant.lt_iff]
  omega

theorem Instant.lt_of_lt_of_le {a b c : Instant} (h1 : a < b) (h2 : b ≤ c) : a < c := by
  rw [Instant.lt_iff] at h1 ⊢
  rw [Instant.le_iff] at h2
  omega

theorem bdLoop_of_not_lt (ws we : ℕ) (wk : List ℕ) (s e : Instant) (fuel : ℕ)
    (c : Instant) (h : ¬ c < e) : bdLoop ws we wk s e fuel c = 0 := by
  cases fuel <;> simp [bdLoop, h]

theorem bdLoop_fuel_congr (ws we : ℕ) (wk : List ℕ) (s e : Instant) :
    ∀ f1 f2 c, e.day + 1 - c.day ≤ f1 → e.day + 1 - c.day ≤ f2 →
      bdLoop ws we wk s e f1 c = bdLoop ws we wk s e f2 c := by
  intro f1
  induction f1 with
  | zero =>
    intro f2 c h1 h2
    have hc : ¬ c < e := by rw [Instant.lt_iff]; omega
    rw [bdLoop_of_not_lt ws we wk s e 0 c hc, bdLoop_of_not_lt ws we wk s e f2 c hc]
  | succ g ih =>
    intro f2 c h1 h2
    by_cases hc : c < e
    · have hday : c.day ≤ e.day := by rw [Instant.lt_iff] at hc; omega
      cases f2 with
      | zero => omega
      | succ g2 =>
        simp only [bdLoop, if_pos hc]
        by_cases hw : c.weekday ∈ wk
        · simp only [if_pos hw]
          exact ih (g2) ⟨c.day + 1, ws * 3600⟩ (by simp; omega) (by simp; omega)
        · simp only [if_neg hw]
          rw [ih (g2) ⟨c.day + 1, ws * 3600⟩ (by simp; omega) (by simp; omega)]
    · rw [bdLoop_of_not_lt ws we wk s e (g + 1) c hc, bdLoop_of_not_lt ws we wk s e f2 c hc]

theorem dayContribution_eq (ws we : ℕ) (s e c : Instant) :
    dayContribution ws we s e c =
      if (if c.day = s.day then (if c.sec < ws * 3600 then ws * 3600 else c.sec) else ws * 3600) <
          (if c.day = e.day then (if we * 3600 < e.sec then we * 3600 else e.sec) else we * 3600) then
        (if c.day = e.day then (if we * 3600 < e.sec then we * 3600 else e.sec) else we * 3600) -
          (if c.day = s.day then (if c.sec < ws * 3600 then ws * 3600 else c.sec) else ws * 3600)
      else 0 := by
  simp only [dayContribution, Instant.replaceHour, Instant.maxI, Instant.minI, Instant.lt_iff,
    apply_ite Instant.sec, apply_ite Instant.day]
  simp only [lt_self_iff_false, false_or, eq_self_iff_true, true_and]
  split_ifs <;> omega

theorem dayContribution_mono (ws we : ℕ) (s e1 e2 c : Instant)
    (hc : c < e1) (he : e1 ≤ e2) :
    dayContribution ws we s e1 c ≤ dayContribution ws we s e2 c := by
  rw [Instant.lt_iff] at hc
  rw [Instant.le_iff] at he
  rw [dayContribution_eq, dayContribution_eq]
  split_ifs <;> omega

theorem bdLoop_mono (ws we : ℕ) (wk : List ℕ) (s e1 e2 : Instant) (he : e1 ≤ e2) :
    ∀ fuel c, bdLoop ws we wk s e1 fuel c ≤ bdLoop ws we wk s e2 fuel c := by
  intro fuel
  induction fuel with
  | zero => intro c; exact Nat.le_refl 0
  | succ g ih =>
    intro c
    by_cases hc : c < e1
    · have hc2 : c < e2 := Instant.lt_of_lt_of_le hc he
      simp only [bdLoop, if_pos hc, if_pos hc2]
      by_cases hw : c.weekday ∈ wk
      · simp only [if_pos hw]
        exact ih _
      · simp only [if_neg hw]
        exact Nat.add_le_add (dayContribution_mono ws we s e1 e2 c hc he) (ih _)
    · rw [bdLoop_of_not_lt ws we wk s e1 (g + 1) c hc]
      exact Nat.zero_le _

theorem businessDurationLoop_eq_bdLoop (s e : Instant) :
    ∀ fuel c, businessDurationLoop s e fuel c = bdLoop 9 18 [4, 5] s e fuel c := by
  intro fuel
  induction fuel with
  | zero => intro c; rfl
  | succ g ih => intro c; simp only [businessDurationLoop, bdLoop, ih]

/-- C1: for every pair of instants with start >= end, both duration
calculators return zero: the day loop never runs, and (for a validly
configured calendar) no error is raised — the saturating-at-zero policy. -/
theorem duration_zero_of_start_ge_end (s e : Instant) (h : e ≤ s) :
    businessDuration s e = 0 ∧
    (∀ ws we wk, bd_core ws we wk s e = 0) ∧
    (∀ (ws we : ℤ) (wd : String), 0 ≤ ws → ws ≤ 23 → 0 ≤ we → we ≤ 23 → ws < we →
      business_duration ws we wd s e = Except.ok 0) := by
  have hns : ¬ s < e := Instant.not_lt_of_le h
  refine ⟨?_, ?_, ?_⟩
  · rw [businessDuration, businessDurationLoop_eq_bdLoop,
      bdLoop_of_not_lt 9 18 [4, 5] s e _ s hns]
  · intro ws we wk
    rw [bd_core, bdLoop_of_not_lt ws we wk s e _ s hns]
  · intro ws we wd h1 h2 h3 h4 h5
    rw [business_duration, if_neg (by omega), if_neg (by omega), if_neg (by omega),
      bd_core, bdLoop_of_not_lt _ _ _ s e _ s hns]

/-- Witness for C1 at a concrete equal pair of instants. -/
theorem duration_zero_of_start_ge_end_witness :
    businessDuration ⟨19358, 3600⟩ ⟨19358, 3600⟩ = 0 :=
  (duration_zero_of_start_ge_end ⟨19358, 3600⟩ ⟨19358, 3600⟩ (by decide)).1

/-- C2: both duration calculators are monotonic in the end instant for a
fixed start: a later end never decreases the computed business duration. -/
theorem duration_monotonic_in_end (ws we : ℕ) (wk : List ℕ) (s e1 e2 : Instant)
    (h : e1 ≤ e2) :
    bd_core ws we wk s e1 ≤ bd_core ws we wk s e2 ∧
    businessDuration s e1 ≤ businessDuration s e2 := by
  have hday : e1.day ≤ e2.day := by rw [Instant.le_iff] at h; omega
  constructor
  · rw [bd_core, bd_core,
      bdLoop_fuel_congr ws we wk s e1 (e1.day + 1 - s.day) (e2.day + 1 - s.day) s
        (Nat.le_refl _) (by omega)]
    exact bdLoop_mono ws we wk s e1 e2 h _ s
  · rw [businessDuration, businessDuration, businessDurationLoop_eq_bdLoop,
      businessDurationLoop_eq_bdLoop,
      bdLoop_fuel_congr 9 18 [4, 5] s e1 (e1.day + 1 - s.day) (e2.day + 1 - s.day) s
        (Nat.le_refl _) (by omega)]
    exact bdLoop_mono 9 18 [4, 5] s e1 e2 h _ s

/-- Witness for C2 at concrete instants. -/
theorem duration_monotonic_in_end_witness :
    bd_core 9 18 [4, 5] ⟨19358, 0⟩ ⟨19358, 0⟩ ≤ bd_core 9 18 [4, 5] ⟨19358, 0⟩ ⟨19359, 0⟩ ∧
    businessDuration ⟨19358, 0⟩ ⟨19358, 0⟩ ≤ businessDuration ⟨19358, 0⟩ ⟨19359, 0⟩ :=
  duration_monotonic_in_end 9 18 [4, 5] ⟨19358, 0⟩ ⟨19358, 0⟩ ⟨19359, 0⟩ (by decide)

/-- C3: with weekend set {Friday, Saturday} and hours 9-18, the span from
2023-01-06T17:00 (day 19363, a Friday) to 2023-01-09T10:00 (day 19366, a
Monday) is exactly 10 hours = 36000 seconds: Friday and Saturday are skipped
wholesale, Sunday (day 19365) contributes its full 9-hour window and Monday
contributes one hour from 09:00 to the clipped end 10:00; the hardcoded and
the configured calculator agree on it. -/
theorem scenario_c_ten_hours :
    businessDuration ⟨19363, 61200⟩ ⟨19366, 36000⟩ = 36000 ∧
    business_duration 9 18 "Friday,Saturday" ⟨19363, 61200⟩ ⟨19366, 36000⟩ =
      Except.ok 36000 ∧
    Instant.weekday ⟨19363, 0⟩ = 4 ∧ Instant.weekday ⟨19364, 0⟩ = 5 ∧
    Instant.weekday ⟨19365, 0⟩ = 6 ∧ Instant.weekday ⟨19366, 0⟩ = 0 ∧
    dayContribution 9 18 ⟨19363, 61200⟩ ⟨19366, 36000⟩ ⟨19365, 32400⟩ = 32400 ∧
    dayContribution 9 18 ⟨19363, 61200⟩ ⟨19366, 36000⟩ ⟨19366, 32400⟩ = 3600 := by
  refine ⟨by decide, ?_, by decide, by decide, by decide, by decide, by decide, by decide⟩
  rw [business_duration, if_neg (by decide), if_neg (by decide), if_neg (by decide)]
  congr 1

/-- C10: the hardcoded businessDuration used by the first-response detector
computes, for every pair of instants, exactly what the configurable
business_duration computes with hours 9-18 and weekend {Friday, Saturday} —
so the measured durations are independent of the configured calendar. -/
theorem businessDuration_refines_configured (s e : Instant) :
    business_duration 9 18 "Friday,Saturday" s e = Except.ok (businessDuration s e) := by
  have hp : parse_weekend "Friday,Saturday" = [4, 5] := by decide
  rw [business_duration, if_neg (by decide), if_neg (by decide), if_neg (by decide), hp,
    show ((9 : ℤ).toNat) = 9 from rfl, show ((18 : ℤ).toNat) = 18 from rfl,
    bd_core, businessDuration, businessDurationLoop_eq_bdLoop]

/-- C4: the response filter ignores a candidate exactly when its author is in
the ignore list, or is a bot, or is the item creator (self-comments never
count), or its timestamp is unresolved (pending), or ready_for_review_at is
set and the resolved timestamp strictly precedes it; in particular a
candidate authored by the item creator is always ignored. -/
theorem ignore_comment_characterization (issue_user comment_user : User)
    (ignore_users : List String) (ts ready : Option Instant) :
    ignore_comment issue_user comment_user ignore_users ts ready = true ↔
      (comment_user.login ∈ ignore_users ∨
       comment_user.userType.toLower = "bot" ∨
       comment_user.login = issue_user.login ∨
       ts = none ∨
       (∃ r t, ready = some r ∧ ts = some t ∧ t < r)) := by
  cases ts <;> cases ready <;>
    simp [ignore_comment, Option.isNone] <;> tauto

/-- C5: on a discussion (no issue given), the detector measures from the
discussion createdAt to the first reply of the ordered reply list, whatever
the ignore list — no filtering is applied to replies; with no replies the
result is absent. -/
theorem discussion_first_reply (d : Discussion) (ready : Option Instant)
    (ignore_users : Option (List String)) :
    (∀ t ts, d.commentNodes = t :: ts →
      measure_time_to_first_response none (some d) none ready ignore_users =
        some (businessDuration d.createdAt t)) ∧
    (d.commentNodes = [] →
      measure_time_to_first_response none (some d) none ready ignore_users = none) := by
  constructor
  · intro t ts h
    simp [measure_time_to_first_response, h]
  · intro h
    simp [measure_time_to_first_response, h]

/-- Witness for C5: a discussion created 2023-01-01T00:00 with one reply at
2023-01-02T00:00 measures 9 business hours. -/
theorem discussion_first_reply_witness :
    measure_time_to_first_response none (some ⟨⟨19358, 0⟩, [⟨19359, 0⟩]⟩) none none none =
      some 32400 := by
  rw [(discussion_first_reply ⟨⟨19358, 0⟩, [⟨19359, 0⟩]⟩ none none).1 ⟨19359, 0⟩ [] rfl]
  decide

/-- C6: if scanning the pull request reviews fails on malformed author data,
the detector behaves exactly as if no review list had been supplied: the
regular comment scan and the final result are unaffected and no failure
propagates. -/
theorem review_scan_failure_recovery (iss : Issue) (reviews : List Review)
    (ready : Option Instant) (ignore_users : Option (List String))
    (h : firstReviewCommentTime iss.user (ignore_users.getD []) ready reviews =
      Except.error ()) :
    measure_time_to_first_response (some iss) none (some reviews) ready ignore_users =
      measure_time_to_first_response (some iss) none none ready ignore_users := by
  simp only [measure_time_to_first_response, h]

/-- Witness for C6: a ghost-authored review list is recovered from and the
comment-based measurement still comes out. -/
theorem review_scan_failure_recovery_witness :
    measure_time_to_first_response
        (some ⟨⟨"alice", "User"⟩, ⟨19358, 0⟩, [⟨⟨"bob", "User"⟩, some ⟨19359, 0⟩⟩]⟩)
        none (some [⟨none, some ⟨19358, 3600⟩⟩]) none none =
      measure_time_to_first_response
        (some ⟨⟨"alice", "User"⟩, ⟨19358, 0⟩, [⟨⟨"bob", "User"⟩, some ⟨19359, 0⟩⟩]⟩)
        none none none none :=
  review_scan_failure_recovery
    ⟨⟨"alice", "User"⟩, ⟨19358, 0⟩, [⟨⟨"bob", "User"⟩, some ⟨19359, 0⟩⟩]⟩
    [⟨none, some ⟨19358, 3600⟩⟩] none none rfl

theorem valid_days_indexOf_inj :
    ∀ x ∈ valid_days, ∀ y ∈ valid_days,
      valid_days.indexOf x = valid_days.indexOf y → x = y := by
  decide

/-- C7: business_duration raises a configuration error exactly when a work
hour is outside [0, 23] or the start hour is at or after the end hour; the
weekend-days string never causes an error, and a canonical day name is in the
parsed weekend set exactly when it occurs among the split-and-stripped
tokens — unrecognized tokens are silently dropped. -/
theorem calendar_validation (ws we : ℤ) (wd : String) (st en : Instant) :
    ((∃ msg, business_duration ws we wd st en = Except.error msg) ↔
      (ws < 0 ∨ ws > 23 ∨ we < 0 ∨ we > 23 ∨ ws ≥ we)) ∧
    (∀ d, d ∈ valid_days →
      (valid_days.indexOf d ∈ parse_weekend wd ↔
        d ∈ (pySplitComma wd.data).map (fun cs => String.mk (pyStrip cs)))) := by
  constructor
  · by_cases h1 : ws < 0 ∨ ws > 23
    · simp only [business_duration, if_pos h1]
      constructor
      · intro _; omega
      · intro _; exact ⟨_, rfl⟩
    · by_cases h2 : we < 0 ∨ we > 23
      · simp only [business_duration, if_neg h1, if_pos h2]
        constructor
        · intro _; omega
        · intro _; exact ⟨_, rfl⟩
      · by_cases h3 : ws ≥ we
        · simp only [business_duration, if_neg h1, if_neg h2, if_pos h3]
          constructor
          · intro _; omega
          · intro _; exact ⟨_, rfl⟩
        · simp only [business_duration, if_neg h1, if_neg h2, if_neg h3]
          constructor
          · rintro ⟨msg, hmsg⟩
            exact absurd hmsg (by simp)
          · intro hcontra
            omega
  · intro d hd
    simp only [parse_weekend]
    constructor
    · intro hpmem
      obtain ⟨x, hxf, hx⟩ := List.mem_map.mp hpmem
      rw [List.mem_filter] at hxf
      obtain ⟨hxmem, hxvalid⟩ := hxf
      rw [decide_eq_true_eq] at hxvalid
      rwa [valid_days_indexOf_inj x hxvalid d hd hx] at hxmem
    · intro hmem
      exact List.mem_map.mpr ⟨d, List.mem_filter.mpr ⟨hmem, by simp [hd]⟩, rfl⟩

/-- Witness for C7: in the input Saturday,Blah the canonical Saturday is kept
(index 5) while the unrecognized Blah is silently dropped and no error
arises. -/
theorem calendar_validation_witness :
    valid_days.indexOf "Saturday" ∈ parse_weekend "Saturday,Blah" :=
  ((calendar_validation 9 18 "Saturday,Blah" ⟨0, 0⟩ ⟨0, 0⟩).2 "Saturday"
    (by decide)).mpr (by decide)

theorem collectResponseTimes_length (issues : List IssueWithMetrics) :
    (collectResponseTimes issues).1.length + (collectResponseTimes issues).2 =
      issues.length := by
  induction issues with
  | nil => rfl
  | cons i rest ih =>
    simp only [collectResponseTimes]
    cases hi : i.time_to_first_response with
    | none => simpa using by omega
    | some t =>
      by_cases ht : t ≠ 0
      · simp only [if_pos ht, List.length_cons]
        omega
      · simp only [if_neg ht]
        simpa using by omega

theorem collectResponseTimes_nil_iff (issues : List IssueWithMetrics) :
    (collectResponseTimes issues).1 = [] ↔
      ∀ i ∈ issues,
        i.time_to_first_response = none ∨ i.time_to_first_response = some 0 := by
  induction issues with
  | nil => simp [collectResponseTimes]
  | cons i rest ih =>
    simp only [collectResponseTimes, List.mem_cons, forall_eq_or_imp]
    cases hi : i.time_to_first_response with
    | none => simp [hi, ih]
    | some t =>
      by_cases ht : t ≠ 0
      · simp only [if_pos ht]
        simp [hi, ht]
      · simp only [if_neg ht]
        push_neg at ht
        simp [hi, ht, ih]

theorem get_stats_none_iff (issues : List IssueWithMetrics) :
    get_stats_time_to_first_response issues = none ↔
      ∀ i ∈ issues,
        i.time_to_first_response = none ∨ i.time_to_first_response = some 0 := by
  rw [← collectResponseTimes_nil_iff]
  have hlen := collectResponseTimes_length issues
  simp only [get_stats_time_to_first_response]
  split_ifs with hg
  · simp only [true_iff]
    have : (collectResponseTimes issues).1.length = 0 := by omega
    exact List.length_eq_zero.mp this
  · simp only [reduceCtorEq, false_iff]
    intro hnil
    rw [hnil] at hlen
    simp at hlen
    omega

/-- C9: the aggregator treats a measured zero duration like an absent sample
(Python timedelta(0) is falsy): it never enters the response-time list, it is
counted with the absent samples, and a list whose samples are all absent or
zero aggregates to none rather than zero statistics. -/
theorem zero_duration_treated_as_absent (issues : List IssueWithMetrics)
    (h : ∀ i ∈ issues,
      i.time_to_first_response = none ∨ i.time_to_first_response = some 0) :
    get_stats_time_to_first_response issues = none ∧
    (collectResponseTimes issues).1 = [] ∧
    (collectResponseTimes issues).2 = issues.length := by
  have hnil := (collectResponseTimes_nil_iff issues).mpr h
  have hlen := collectResponseTimes_length issues
  refine ⟨(get_stats_none_iff issues).mpr h, hnil, ?_⟩
  rw [hnil] at hlen
  simpa using hlen

/-- Witness for C9 on a concrete all-absent-or-zero list. -/
theorem zero_duration_treated_as_absent_witness :
    get_stats_time_to_first_response [⟨some 0⟩, ⟨none⟩] = none ∧
    (collectResponseTimes [⟨some 0⟩, ⟨none⟩]).1 = [] ∧
    (collectResponseTimes [⟨some 0⟩, ⟨none⟩]).2 = 2 :=
  zero_duration_treated_as_absent [⟨some 0⟩, ⟨none⟩] (by simp)

/-- Counterexample to C8 as stated: on the input list with samples
0s, 1s, 2s the claim, which drops only absent samples, predicts statistics
over the remaining multiset 0, 1, 2 — in particular median 1 second — but
the code drops the zero sample as well (timedelta(0) is falsy) and rounds
every statistic, returning average 2, median 2 and p90 2 seconds. -/
theorem aggregator_claim_counterexample :
    get_stats_time_to_first_response [⟨some 0⟩, ⟨some 1⟩, ⟨some 2⟩] =
      some ⟨2, 2, 2⟩ ∧
    Stats.med ⟨2, 2, 2⟩ ≠ 1 := by
  constructor
  · norm_num [get_stats_time_to_first_response, collectResponseTimes, npAverage, npMedian,
      npPercentile, sortQ, insertSorted, roundHalfEven]
  · decide

/-- C8 amended: the aggregator drops all absent and all zero samples; when no
sample remains it returns absent (never zero statistics); otherwise it
returns the rounded mean, the rounded linear-interpolation median and the
rounded linear-interpolation 90th percentile of the remaining seconds — over
the sample set of 9 hours and 18 hours this gives average 13.5 hours = 48600
seconds and median 13.5 hours, with p90 interpolated to 61560 seconds. -/
theorem aggregator_amended (issues : List IssueWithMetrics) :
    (get_stats_time_to_first_response issues = none ↔
      ∀ i ∈ issues,
        i.time_to_first_response = none ∨ i.time_to_first_response = some 0) ∧
    get_stats_time_to_first_response [⟨some 32400⟩, ⟨some 64800⟩] =
      some ⟨48600, 48600, 61560⟩ := by
  refine ⟨get_stats_none_iff issues, ?_⟩
  norm_num [get_stats_time_to_first_response, collectResponseTimes, npAverage, npMedian,
    npPercentile, sortQ, insertSorted, roundHalfEven]

/-- Witness for C8 amended at a concrete all-absent list. -/
theorem aggregator_amended_witness :
    get_stats_time_to_first_response [⟨none⟩, ⟨none⟩] = none :=
  (aggregator_amended [⟨none⟩, ⟨none⟩]).1.mpr (by simp)
